import Mathlib

/-!
Shallow embedding of the solar-yield data pipeline of this repository.

The pipeline lives in `app/components/SolarData.tsx`,
`app/components/PostcodeSolarData.tsx` and the proxy route
`app/api/NREL/route.ts`.  JavaScript numbers coming out of JSON payloads
are modelled as exact rationals `ℚ`; values produced by `parseFloat` and
by division, which can be `NaN` or infinite in JavaScript, are modelled
by the type `JSNum` below.  Network effects (`fetch`) are modelled by
passing the outcome of each call as an explicit argument, and the
client-side handler is additionally given a trace semantics recording
the order of its observable actions.
-/

/-- A JavaScript number as produced by `parseFloat` or by division:
either `NaN`, a signed infinity (`inf true` is `+Infinity`), or a finite
value modelled as an exact rational. -/
inductive JSNum : Type where
  | nan : JSNum
  | inf (pos : Bool) : JSNum
  | finite (q : ℚ) : JSNum
deriving DecidableEq, Repr

/-- `Number.isNaN` / the global `isNaN` applied to an already-converted
number: true exactly on `NaN`. -/
def JSNum.isNaN : JSNum → Bool
  | .nan => true
  | _ => false

/-- JavaScript division of two finite numbers: `0/0` is `NaN`, `x/0` for
`x ≠ 0` is a signed infinity, and otherwise the exact quotient. -/
def jsDiv (x y : ℚ) : JSNum :=
  if y = 0 then (if x = 0 then .nan else .inf (decide (0 < x))) else .finite (x / y)

/-! ### A model of the ECMAScript `parseFloat` builtin

`parseFloat` is a JavaScript builtin, not code of this repository; the
resolver in both components applies it to the latitude/longitude strings
of the geocoder response.  The model below follows the ECMAScript
algorithm: skip leading whitespace, then read the longest prefix that is
a valid decimal literal (`[+-]?` followed by `Infinity`, or digits with
an optional fraction and an optional exponent); the result is `NaN` when
no such prefix exists.  Finite values are exact rationals (the model
does not round to binary64). -/

/-- Skip leading whitespace characters (the common ECMAScript
whitespace: space, tab, newline, carriage return). -/
def skipWs : List Char → List Char
  | [] => []
  | c :: cs => if c = ' ' ∨ c = '\t' ∨ c = '\n' ∨ c = '\r' then skipWs cs else c :: cs

/-- Read a maximal run of decimal digits, returning their values and the
rest of the input. -/
def takeDigits : List Char → List ℕ × List Char
  | [] => ([], [])
  | c :: cs =>
    if c.isDigit then
      let r := takeDigits cs
      ((c.toNat - 48) :: r.1, r.2)
    else ([], c :: cs)

/-- The natural number denoted by a list of digit values, most
significant first. -/
def digitsToNat (ds : List ℕ) : ℕ := ds.foldl (fun a d => 10 * a + d) 0

/-- Read an optional exponent part `(e|E) [+-]? digits`; returns
`(negate, magnitude)`, with `(false, 0)` when no valid exponent part is
present (in which case it is not part of the literal). -/
def readExpPart (cs : List Char) : Bool × ℕ :=
  match cs with
  | [] => (false, 0)
  | c :: cs' =>
    if c = 'e' ∨ c = 'E' then
      match cs' with
      | [] => (false, 0)
      | s :: cs'' =>
        if s = '+' then
          (if (takeDigits cs'').1 = [] then (false, 0)
           else (false, digitsToNat (takeDigits cs'').1))
        else if s = '-' then
          (if (takeDigits cs'').1 = [] then (false, 0)
           else (true, digitsToNat (takeDigits cs'').1))
        else
          (if (takeDigits cs').1 = [] then (false, 0)
           else (false, digitsToNat (takeDigits cs').1))
    else (false, 0)

/-- Apply a decimal exponent to a mantissa. -/
def applyExp (m : ℚ) (neg : Bool) (mag : ℕ) : ℚ :=
  if neg then m / 10 ^ mag else m * 10 ^ mag

/-- Parse an unsigned decimal literal prefix (`Infinity`, or digits with
optional fraction and exponent); `none` when the input has no such
prefix. -/
def readUnsigned (cs : List Char) : Option JSNum :=
  if cs.take 8 = "Infinity".data then some (.inf true)
  else
    let r1 := takeDigits cs
    match r1.2 with
    | '.' :: cs2 =>
      let r2 := takeDigits cs2
      if r1.1 = [] ∧ r2.1 = [] then none
      else
        let e := readExpPart r2.2
        some (.finite (applyExp
          ((digitsToNat r1.1 : ℚ) + (digitsToNat r2.1 : ℚ) / 10 ^ r2.1.length)
          e.1 e.2))
    | _ =>
      if r1.1 = [] then none
      else
        let e := readExpPart r1.2
        some (.finite (applyExp (digitsToNat r1.1 : ℚ) e.1 e.2))

/-- Model of the ECMAScript `parseFloat` builtin (see the section
comment above). -/
def parseFloat (s : String) : JSNum :=
  match skipWs s.data with
  | '-' :: rest =>
    match readUnsigned rest with
    | none => .nan
    | some (.inf _) => .inf false
    | some (.finite q) => .finite (-q)
    | some .nan => .nan
  | '+' :: rest =>
    match readUnsigned rest with
    | none => .nan
    | some v => v
  | cs =>
    match readUnsigned cs with
    | none => .nan
    | some v => v

/-! ### The geocode resolver

`getLatitudeLongitude` appears verbatim in both `SolarData.tsx`
(lines 51-69) and `PostcodeSolarData.tsx` (lines 31-49); one embedding
covers both.  The outcome of the `fetch` of the worldpostallocations
URL is passed explicitly: `failure` is a rejected `fetch` (caught by the
surrounding `try`), and `response ok body` a settled response with its
`ok` flag and decoded JSON body. -/

/-- One entry of the geocoder's `result` list. -/
structure GeoResult : Type where
  latitude : String
  longitude : String
deriving DecidableEq, Repr

/-- The `LatLongResponse` shape of `SolarData.tsx` lines 9-13. -/
structure LatLongResponse : Type where
  status : Option String := none
  result : Option (List GeoResult) := none
  message : Option String := none
deriving DecidableEq, Repr

/-- Outcome of a `fetch` call: the call either rejects (`failure`) or
settles with an `ok` flag and a decoded JSON body. -/
inductive FetchOutcome (α : Type) : Type where
  | failure : FetchOutcome α
  | response (ok : Bool) (body : α) : FetchOutcome α
deriving DecidableEq, Repr

/-- `getLatitudeLongitude` of `SolarData.tsx` lines 51-69 (identical in
`PostcodeSolarData.tsx` lines 31-49): returns `none` ("Unresolved") on a
rejected fetch, a non-ok response, a missing or empty `result` list, or
when either coordinate string parses to `NaN`; otherwise the parsed
coordinates of the first `result` entry. -/
def getLatitudeLongitude (outcome : FetchOutcome LatLongResponse) : Option (JSNum × JSNum) :=
  match outcome with
  | .failure => none
  | .response ok body =>
    if !ok then none
    else
      match body.result with
      | none => none
      | some rs =>
        match rs with
        | [] => none
        | r0 :: _ =>
          let lat := parseFloat r0.latitude
          let long := parseFloat r0.longitude
          if lat.isNaN || long.isNaN then none else some (lat, long)

/-! ### The yield transformer of `SolarData.tsx`

`getSolarData` (lines 93-110) rescales the upstream payload by
`scaleFactor = solarcapacity / 1000` and reshapes it into the
`SolarData` bundle. -/

/-- The `outputs` object of the upstream `SolarDataResponse`
(`SolarData.tsx` lines 15-26). -/
structure SolarOutputs : Type where
  ac : List ℚ
  ac_monthly : List ℚ := []
  poa_monthly : List ℚ := []
  solrad_monthly : List ℚ := []
  dc_monthly : List ℚ := []
  ac_annual : ℚ := 0
  solrad_annual : ℚ := 0
  capacity_factor : ℚ := 0
deriving DecidableEq, Repr

/-- One entry of the `hourly` series (`SolarData.tsx` line 29). -/
structure HourlyPoint : Type where
  hour : ℕ
  power : ℚ
deriving DecidableEq, Repr

/-- The `monthly` family of the `SolarData` bundle (lines 30-35). -/
structure MonthlyData : Type where
  ac_monthly : List ℚ
  poa_monthly : List ℚ
  solrad_monthly : List ℚ
  dc_monthly : List ℚ
deriving DecidableEq, Repr

/-- The `annual` family of the `SolarData` bundle (lines 36-40). -/
structure AnnualData : Type where
  ac_annual : ℚ
  solrad_annual : ℚ
  capacity_factor : ℚ
deriving DecidableEq, Repr

/-- The `SolarData` output bundle (`SolarData.tsx` lines 28-41). -/
structure SolarData : Type where
  hourly : List HourlyPoint
  monthly : MonthlyData
  annual : AnnualData
deriving DecidableEq, Repr

/-- The `combinedData` computation of `SolarData.tsx` lines 93-110:
`scaleFactor = solarcapacity / 1000`; `hourly` maps each `ac` value with
its index to `{hour := index, power := power * scaleFactor}`; the AC,
POA and DC monthly series and `ac_annual` are scaled by the same factor;
`solrad_monthly`, `solrad_annual` and `capacity_factor` pass through. -/
def combineSolarData (outputs : SolarOutputs) (solarcapacity : ℚ) : SolarData :=
  let scaleFactor := solarcapacity / 1000
  { hourly := outputs.ac.enum.map (fun p => { hour := p.1, power := p.2 * scaleFactor })
    monthly :=
      { ac_monthly := outputs.ac_monthly.map (fun val => val * scaleFactor)
        poa_monthly := outputs.poa_monthly.map (fun val => val * scaleFactor)
        solrad_monthly := outputs.solrad_monthly
        dc_monthly := outputs.dc_monthly.map (fun val => val * scaleFactor) }
    annual :=
      { ac_annual := outputs.ac_annual * scaleFactor
        solrad_annual := outputs.solrad_annual
        capacity_factor := outputs.capacity_factor } }

/-! ### The daily aggregation of `PostcodeSolarData.tsx` -/

/-- One entry of the aggregated daily series
(`PostcodeSolarData.tsx` lines 18-21). -/
structure AggregatedSolarData : Type where
  day : ℕ
  avgPower : JSNum
deriving DecidableEq, Repr

/-- Default used with `List.getD` when stating element-wise properties
of the daily series. -/
def defaultAgg : AggregatedSolarData := { day := 0, avgPower := .nan }

/-- The rescale of `PostcodeSolarData.tsx` line 73:
`acPower = data.outputs.ac.map((power) => (power * solarcapacity) / 1000)`. -/
def acPowerScaled (ac : List ℚ) (solarcapacity : ℚ) : List ℚ :=
  ac.map (fun power => power * solarcapacity / 1000)

/-- The daily aggregation loop of `PostcodeSolarData.tsx` lines 75-82:
for each `day` in `0..364`, slice `acPower[day*24 .. day*24+24)`, sum it
with `reduce((sum, val) => sum + val, 0)` and divide by the slice
length.  JavaScript `slice` clamps to the array end, and the division is
`jsDiv` (an empty slice gives `0/0 = NaN`). -/
def dailyAverages (acPower : List ℚ) : List AggregatedSolarData :=
  (List.range 365).map (fun day =>
    let start := day * 24
    let dayPower := (acPower.drop start).take 24
    { day := day + 1
      avgPower := jsDiv (dayPower.foldl (fun sum val => sum + val) 0) (dayPower.length : ℚ) })

/-! ### The proxy route `app/api/NREL/route.ts`

The `POST` handler parses `{lat, long}` from the request body, reads the
`NREL_API` credential from the process environment, fetches the upstream
PVWatts URL, and relays the decoded JSON body with status 200; every
failure (body parse error, missing credential, rejected fetch, non-ok
upstream status) is caught and answered with `{error: message}` and
status 500.  Inputs that are effects in the code (body parsing, the
environment, the upstream fetch) are passed explicitly; the handler is
polymorphic in the upstream payload type. -/

/-- An HTTP response produced by the proxy route: a status code and
either an error object `{error: msg}` (`Sum.inl`) or the relayed
upstream JSON payload (`Sum.inr`). -/
structure ProxyResponse (α : Type) : Type where
  status : ℕ
  body : String ⊕ α
deriving DecidableEq, Repr

/-- The upstream PVWatts URL built at `route.ts` line 12 (fixed
parameter set; only the credential and coordinates vary). -/
def nrelUrl (apiKey : String) (lat long : ℚ) : String :=
  "https://developer.nrel.gov/api/pvwatts/v6.json?api_key=" ++ apiKey ++
    "&lat=" ++ toString lat ++ "&lon=" ++ toString long ++
    "&system_capacity=1&azimuth=180&tilt=40&array_type=1&module_type=1&losses=10&timeframe=hourly"

/-- The `POST` handler of `app/api/NREL/route.ts` lines 4-24.
`reqBody` is the outcome of `await req.json()` (`Except.error msg` when
it throws), `apiKey` the value of `process.env.NREL_API` (`none` when
unset), and `upstream` the outcome of `fetch(url)` on the URL actually
requested.  The `!apiKey` guard also fires on a present-but-empty
string.  A rejected fetch throws a runtime-dependent `TypeError`; its
message (relayed as `error.message` by the catch block) is modelled by
the fixed placeholder string below, since only its presence, not its
content, is determined by the source. -/
def proxyPOST {α : Type} (reqBody : Except String (ℚ × ℚ)) (apiKey : Option String)
    (upstream : String → FetchOutcome α) : ProxyResponse α :=
  match reqBody with
  | .error msg => { status := 500, body := .inl msg }
  | .ok (lat, long) =>
    match apiKey with
    | none => { status := 500, body := .inl "NREL API key is missing in environment variables" }
    | some key =>
      if key = "" then
        { status := 500, body := .inl "NREL API key is missing in environment variables" }
      else
        match upstream (nrelUrl key lat long) with
        | .failure => { status := 500, body := .inl "Unknown error" }
        | .response ok data =>
          if ok then { status := 200, body := .inr data }
          else { status := 500, body := .inl "Failed to fetch data from NREL API" }

/-! ### Trace semantics of the client pipeline

`getSolarData` of `SolarData.tsx` lines 71-119 is an async handler whose
observable actions, in program order, are: `setLoading(true)`,
`setError('')`, the geocode fetch, then (only if the geocode resolved)
the proxy fetch, then either `setSolarData(...)` or
`setError('Data cannot be fetched for this postcode')`, and finally
`setLoading(false)` from the `finally` block.  The two fetch outcomes
are passed explicitly, as above. -/

/-- One observable action of the `getSolarData` handler. -/
inductive Event : Type where
  | setLoading (b : Bool) : Event
  | setError (msg : String) : Event
  | geocodeRequest (pincode countrycode : String) : Event
  | proxyRequest (lat long : JSNum) : Event
  | setSolarData (d : SolarData) : Event
deriving DecidableEq, Repr

/-- Trace of observable actions of one run of `getSolarData`
(`SolarData.tsx` lines 71-119), given the outcomes of the two network
calls. -/
def getSolarDataTrace (pincode countrycode : String) (solarcapacity : ℚ)
    (geo : FetchOutcome LatLongResponse)
    (proxy : JSNum → JSNum → FetchOutcome SolarOutputs) : List Event :=
  [Event.setLoading true, Event.setError "", Event.geocodeRequest pincode countrycode] ++
    (match getLatitudeLongitude geo with
     | none => [Event.setError "Data cannot be fetched for this postcode"]
     | some (lat, long) =>
       Event.proxyRequest lat long ::
         (match proxy lat long with
          | .failure => [Event.setError "Data cannot be fetched for this postcode"]
          | .response ok outs =>
            if ok then [Event.setSolarData (combineSolarData outs solarcapacity)]
            else [Event.setError "Data cannot be fetched for this postcode"])) ++
    [Event.setLoading false]

/-! ### Helper lemmas -/

/-- JavaScript `reduce((sum, val) => sum + val, 0)` computes the list
sum. -/
theorem foldl_add_eq_sum (l : List ℚ) : l.foldl (fun sum val => sum + val) 0 = l.sum := by
  rw [List.sum_eq_foldl]

/-- Length of a 24-element slice starting at `s`. -/
theorem window_length (l : List ℚ) (s : ℕ) :
    ((l.drop s).take 24).length = min 24 (l.length - s) := by
  simp [List.length_take, List.length_drop]

/-- A 24-element slice starting at `s`, written index-wise. -/
theorem window_eq_ofFn (l : List ℚ) (s : ℕ) :
    (l.drop s).take 24 =
      List.ofFn (fun i : Fin (min 24 (l.length - s)) => l.getD (s + i) 0) := by
  apply List.ext_getElem
  · simp
  · intro i h1 h2
    have hi : i < min 24 (l.length - s) := by
      simpa [List.length_take, List.length_drop] using h1
    have hil : s + i < l.length := by omega
    simp only [List.getElem_ofFn]
    rw [List.getElem_take, List.getElem_drop, List.getD_eq_getElem _ _ hil]

/-- The sum of a 24-element slice starting at `s`, index-wise. -/
theorem window_sum (l : List ℚ) (s : ℕ) :
    ((l.drop s).take 24).sum =
      ∑ i in Finset.range (min 24 (l.length - s)), l.getD (s + i) 0 := by
  rw [window_eq_ofFn, List.sum_ofFn]
  exact Fin.sum_univ_eq_sum_range (fun i => l.getD (s + i) 0) (min 24 (l.length - s))

/-- The daily series always has 365 entries. -/
theorem dailyAverages_length (acPower : List ℚ) : (dailyAverages acPower).length = 365 := by
  simp [dailyAverages]

/-- Closed form of the `d`-th entry of the daily series. -/
theorem dailyAverages_getD (acPower : List ℚ) (d : ℕ) (hd : d < 365) :
    (dailyAverages acPower).getD d defaultAgg =
      { day := d + 1
        avgPower := jsDiv (((acPower.drop (d * 24)).take 24).sum)
          ((((acPower.drop (d * 24)).take 24).length : ℕ) : ℚ) } := by
  have hlen : d < (dailyAverages acPower).length := by
    simpa [dailyAverages] using hd
  rw [List.getD_eq_getElem _ _ hlen]
  simp [dailyAverages, foldl_add_eq_sum]

/-! ### Claims -/

/-- C1: for every upstream reference hourly series `outputs.ac` and
every `capacityKW`, the transformer's hourly output satisfies
`hourly[i].power = ac[i] * capacityKW / 1000` and `hourly[i].hour = i`
for every index `i` of the series; the `PostcodeSolarData` rescale on
line 73 satisfies the same linear rule. -/
theorem hourly_linear_rescale (o : SolarOutputs) (cap : ℚ) :
    (combineSolarData o cap).hourly.length = o.ac.length ∧
    ∀ i, i < o.ac.length →
      ((combineSolarData o cap).hourly.getD i { hour := 0, power := 0 }).hour = i ∧
      ((combineSolarData o cap).hourly.getD i { hour := 0, power := 0 }).power =
        o.ac.getD i 0 * cap / 1000 ∧
      (acPowerScaled o.ac cap).getD i 0 = o.ac.getD i 0 * cap / 1000 := by
  have hlen : (combineSolarData o cap).hourly.length = o.ac.length := by
    simp [combineSolarData]
  refine ⟨hlen, fun i hi => ?_⟩
  have h1 : i < (combineSolarData o cap).hourly.length := by omega
  have h2 : i < (acPowerScaled o.ac cap).length := by simpa [acPowerScaled] using hi
  rw [List.getD_eq_getElem _ _ h1, List.getD_eq_getElem _ _ h2, List.getD_eq_getElem _ _ hi]
  refine ⟨?_, ?_, ?_⟩
  · simp [combineSolarData]
  · simp [combineSolarData, mul_div_assoc]
  · simp [acPowerScaled]

/-- Witness for C1 at a concrete payload: two hourly values, capacity
500 kW, index 1. -/
theorem hourly_linear_rescale_witness :
    (1 : ℕ) < ({ ac := [2, 3] } : SolarOutputs).ac.length ∧
    ((combineSolarData { ac := [2, 3] } 500).hourly.getD 1 { hour := 0, power := 0 }).hour = 1 :=
  ⟨by decide, ((hourly_linear_rescale { ac := [2, 3] } 500).2 1 (by decide)).1⟩

/-- C2: on an input of length at least 8760 the daily aggregation has
exactly 365 entries, the `d`-th entry's `day` field is `d + 1` (so the
fields are strictly increasing `1..365` with no gaps), and its average
power is the arithmetic mean of the rescaled hourly values at indices
`d*24 .. d*24+23`. -/
theorem daily_partition_of_long_input (ac : List ℚ) (cap : ℚ) (h : 8760 ≤ ac.length) :
    (dailyAverages (acPowerScaled ac cap)).length = 365 ∧
    ∀ d, d < 365 →
      ((dailyAverages (acPowerScaled ac cap)).getD d defaultAgg).day = d + 1 ∧
      ((dailyAverages (acPowerScaled ac cap)).getD d defaultAgg).avgPower =
        .finite ((∑ i in Finset.range 24, (acPowerScaled ac cap).getD (d * 24 + i) 0) / 24) := by
  refine ⟨dailyAverages_length _, fun d hd => ?_⟩
  rw [dailyAverages_getD _ d hd]
  have hlen : (acPowerScaled ac cap).length = ac.length := by simp [acPowerScaled]
  have hmin : min 24 ((acPowerScaled ac cap).length - d * 24) = 24 := by omega
  refine ⟨rfl, ?_⟩
  rw [window_sum, window_length, hmin, jsDiv]
  norm_num

/-- Witness for C2 at a constant series of 8760 hourly values. -/
theorem daily_partition_witness :
    8760 ≤ (List.replicate 8760 (2 : ℚ)).length ∧ (0 : ℕ) < 365 ∧
    ((dailyAverages (acPowerScaled (List.replicate 8760 (2 : ℚ)) 1000)).getD 0 defaultAgg).day =
      0 + 1 :=
  ⟨by rw [List.length_replicate], by decide,
    ((daily_partition_of_long_input (List.replicate 8760 (2 : ℚ)) 1000
      (by rw [List.length_replicate])).2 0 (by decide)).1⟩

/-- C3: the transformer scales `ac_monthly`, `poa_monthly`, `dc_monthly`
element-wise and `ac_annual` by `capacityKW / 1000`, and passes
`solrad_monthly`, `solrad_annual` and `capacity_factor` through
unchanged; in particular `solrad_monthly` is identical for capacity 1
and capacity 5000. -/
theorem monthly_annual_scaling (o : SolarOutputs) (cap : ℚ) :
    (∀ i, i < o.ac_monthly.length →
      (combineSolarData o cap).monthly.ac_monthly.getD i 0 = o.ac_monthly.getD i 0 * cap / 1000) ∧
    (∀ i, i < o.poa_monthly.length →
      (combineSolarData o cap).monthly.poa_monthly.getD i 0 =
        o.poa_monthly.getD i 0 * cap / 1000) ∧
    (∀ i, i < o.dc_monthly.length →
      (combineSolarData o cap).monthly.dc_monthly.getD i 0 = o.dc_monthly.getD i 0 * cap / 1000) ∧
    (combineSolarData o cap).monthly.solrad_monthly = o.solrad_monthly ∧
    (combineSolarData o cap).annual.ac_annual = o.ac_annual * cap / 1000 ∧
    (combineSolarData o cap).annual.solrad_annual = o.solrad_annual ∧
    (combineSolarData o cap).annual.capacity_factor = o.capacity_factor ∧
    (combineSolarData o 1).monthly.solrad_monthly =
      (combineSolarData o 5000).monthly.solrad_monthly := by
  refine ⟨fun i hi => ?_, fun i hi => ?_, fun i hi => ?_, rfl, ?_, rfl, rfl, rfl⟩
  · have h1 : i < (combineSolarData o cap).monthly.ac_monthly.length := by
      simpa [combineSolarData] using hi
    rw [List.getD_eq_getElem _ _ h1, List.getD_eq_getElem _ _ hi]
    simp [combineSolarData, mul_div_assoc]
  · have h1 : i < (combineSolarData o cap).monthly.poa_monthly.length := by
      simpa [combineSolarData] using hi
    rw [List.getD_eq_getElem _ _ h1, List.getD_eq_getElem _ _ hi]
    simp [combineSolarData, mul_div_assoc]
  · have h1 : i < (combineSolarData o cap).monthly.dc_monthly.length := by
      simpa [combineSolarData] using hi
    rw [List.getD_eq_getElem _ _ h1, List.getD_eq_getElem _ _ hi]
    simp [combineSolarData, mul_div_assoc]
  · simp [combineSolarData, mul_div_assoc]

/-- Concrete upstream payload used by the C3 witness. -/
def outsW : SolarOutputs := { ac := [], ac_monthly := [3], solrad_monthly := [7] }

/-- Witness for C3 at a concrete payload and capacity 2000 kW. -/
theorem monthly_annual_scaling_witness :
    (0 : ℕ) < outsW.ac_monthly.length ∧
    (combineSolarData outsW 2000).monthly.ac_monthly.getD 0 0 =
      outsW.ac_monthly.getD 0 0 * 2000 / 1000 :=
  ⟨by decide, (monthly_annual_scaling outsW 2000).1 0 (by decide)⟩

/-- C6 (amended): on an input shorter than 8760 the daily-average
computation is total (never throws) and still yields 365 entries; a
window that begins before the array end averages exactly the elements
actually present (its slice is clamped to the array end), while a
window that begins at or after the array end has no elements and its
average is the JavaScript `0/0`, i.e. `NaN`. -/
theorem daily_short_input_windows (ac : List ℚ) (cap : ℚ) (_h : ac.length < 8760) :
    (dailyAverages (acPowerScaled ac cap)).length = 365 ∧
    ∀ d, d < 365 →
      (d * 24 < ac.length →
        ((dailyAverages (acPowerScaled ac cap)).getD d defaultAgg).avgPower =
          .finite ((∑ i in Finset.range (min 24 (ac.length - d * 24)),
              (acPowerScaled ac cap).getD (d * 24 + i) 0) /
            ((min 24 (ac.length - d * 24) : ℕ) : ℚ))) ∧
      (ac.length ≤ d * 24 →
        ((dailyAverages (acPowerScaled ac cap)).getD d defaultAgg).avgPower = .nan) := by
  refine ⟨dailyAverages_length _, fun d hd => ?_⟩
  have hlen : (acPowerScaled ac cap).length = ac.length := by simp [acPowerScaled]
  constructor
  · intro hin
    rw [dailyAverages_getD _ d hd]
    have hmin : (0 : ℕ) < min 24 (ac.length - d * 24) := by omega
    rw [window_sum, window_length, hlen, jsDiv]
    rw [if_neg (by exact_mod_cast Nat.pos_iff_ne_zero.mp hmin)]
  · intro hout
    rw [dailyAverages_getD _ d hd]
    have hnil : (acPowerScaled ac cap).drop (d * 24) = [] := by
      rw [List.drop_eq_nil_iff]
      omega
    rw [hnil]
    simp [jsDiv]

unseal Rat.mul Rat.inv Rat.add Rat.sub in
/-- Counterexample for C6 as stated: on a 24-element input (one full
day), the second daily entry's window lies entirely past the array end;
the code computes `0/0`, i.e. `NaN`, which is not an average of the
elements present (there are none). -/
theorem daily_short_input_counterexample :
    (List.replicate 24 (1 : ℚ)).length < 8760 ∧
    (dailyAverages (acPowerScaled (List.replicate 24 (1 : ℚ)) 1000)).getD 1 defaultAgg =
      { day := 2, avgPower := JSNum.nan } := by
  constructor
  · decide
  · decide

/-- Witness for C6 (amended) at a 24-element input, day index 14 (a
window entirely past the array end). -/
theorem daily_short_input_witness :
    (List.replicate 24 (2 : ℚ)).length < 8760 ∧ (14 : ℕ) < 365 ∧
    (List.replicate 24 (2 : ℚ)).length ≤ 14 * 24 ∧
    ((dailyAverages (acPowerScaled (List.replicate 24 (2 : ℚ)) 1000)).getD 14
      defaultAgg).avgPower = .nan :=
  ⟨by decide, by decide, by decide,
    ((daily_short_input_windows (List.replicate 24 (2 : ℚ)) 1000 (by decide)).2 14
      (by decide)).2 (by decide)⟩

/-- A daily window (all of which start at `s = d * 24 ≤ 8736`) only
reads the first 8760 elements of the series. -/
theorem window_take_stable (l : List ℚ) (s : ℕ) (hs : s + 24 ≤ 8760) :
    (l.drop s).take 24 = ((l.take 8760).drop s).take 24 := by
  rw [List.drop_take, List.take_take]
  congr 1
  omega

/-- C10: for every input length (empty, short, or longer than 8760),
the daily aggregation has exactly 365 entries with `day` fields
`1..365`, and elements at index 8760 or beyond never affect any entry:
two inputs agreeing on their first 8760 elements yield identical daily
series. -/
theorem daily_depends_only_on_first_8760 (ac ac' : List ℚ) (cap : ℚ)
    (h : ac.take 8760 = ac'.take 8760) :
    (dailyAverages (acPowerScaled ac cap)).length = 365 ∧
    (∀ d, d < 365 → ((dailyAverages (acPowerScaled ac cap)).getD d defaultAgg).day = d + 1) ∧
    dailyAverages (acPowerScaled ac cap) = dailyAverages (acPowerScaled ac' cap) := by
  refine ⟨dailyAverages_length _, fun d hd => ?_, ?_⟩
  · rw [dailyAverages_getD _ d hd]
  · have htake : (acPowerScaled ac cap).take 8760 = (acPowerScaled ac' cap).take 8760 := by
      simp only [acPowerScaled, ← List.map_take, h]
    unfold dailyAverages
    apply List.map_congr_left
    intro d hd
    have hd365 : d < 365 := by simpa using hd
    have hwin : ((acPowerScaled ac cap).drop (d * 24)).take 24 =
        ((acPowerScaled ac' cap).drop (d * 24)).take 24 := by
      rw [window_take_stable _ _ (by omega), htake, ← window_take_stable _ _ (by omega)]
    simp only [hwin]

/-- Witness for C10: an 8761-element input and its 8760-element
truncation yield identical daily series. -/
theorem daily_depends_witness :
    (List.replicate 8761 (2 : ℚ)).take 8760 = (List.replicate 8760 (2 : ℚ)).take 8760 ∧
    dailyAverages (acPowerScaled (List.replicate 8761 (2 : ℚ)) 1000) =
      dailyAverages (acPowerScaled (List.replicate 8760 (2 : ℚ)) 1000) :=
  ⟨by norm_num [List.take_replicate],
    (daily_depends_only_on_first_8760 (List.replicate 8761 (2 : ℚ))
      (List.replicate 8760 (2 : ℚ)) 1000 (by norm_num [List.take_replicate])).2.2⟩

/-- C9: the transformer is deterministic and pure: two runs on equal
upstream payloads and equal capacities produce equal output bundles,
both for the `SolarData.tsx` bundle and for the daily series of
`PostcodeSolarData.tsx`. -/
theorem transformer_deterministic (o o' : SolarOutputs) (cap cap' : ℚ)
    (ho : o = o') (hc : cap = cap') :
    combineSolarData o cap = combineSolarData o' cap' ∧
    dailyAverages (acPowerScaled o.ac cap) = dailyAverages (acPowerScaled o'.ac cap') := by
  subst ho
  subst hc
  exact ⟨rfl, rfl⟩

/-- Witness for C9 at a concrete payload. -/
theorem transformer_deterministic_witness :
    ({ ac := [2, 3] } : SolarOutputs) = { ac := [2, 3] } ∧ (1000 : ℚ) = 1000 ∧
    combineSolarData { ac := [2, 3] } 1000 = combineSolarData { ac := [2, 3] } 1000 :=
  ⟨rfl, rfl, (transformer_deterministic { ac := [2, 3] } { ac := [2, 3] } 1000 1000 rfl rfl).1⟩

unseal Rat.mul Rat.inv Rat.add Rat.sub in
/-- Counterexample for C4 as stated: a geocoder response whose first
result has latitude string "500" resolves to coordinates with latitude
500, which is outside [-90, 90] — no range check is performed. -/
theorem resolver_range_counterexample :
    getLatitudeLongitude
        (.response true { result := some [{ latitude := "500", longitude := "0" }] }) =
      some (JSNum.finite 500, JSNum.finite 0) ∧
    ¬((500 : ℚ) ≤ 90) := by
  constructor
  · decide
  · decide

/-- C4 (amended): whenever `getLatitudeLongitude` returns coordinates,
neither coordinate is `NaN`; the code performs no finiteness or range
check, so infinite or out-of-range values pass through. -/
theorem resolved_coords_not_nan (outcome : FetchOutcome LatLongResponse) (la lo : JSNum)
    (h : getLatitudeLongitude outcome = some (la, lo)) :
    la.isNaN = false ∧ lo.isNaN = false := by
  cases outcome with
  | failure => simp [getLatitudeLongitude] at h
  | response ok body =>
    cases ok with
    | false => simp [getLatitudeLongitude] at h
    | true =>
      cases hr : body.result with
      | none => simp [getLatitudeLongitude, hr] at h
      | some rs =>
        cases rs with
        | nil => simp [getLatitudeLongitude, hr] at h
        | cons r0 rest =>
          by_cases hla : (parseFloat r0.latitude).isNaN
          · simp [getLatitudeLongitude, hr, hla] at h
          · by_cases hlo : (parseFloat r0.longitude).isNaN
            · simp [getLatitudeLongitude, hr, hla, hlo] at h
            · simp [getLatitudeLongitude, hr, hla, hlo] at h
              rw [← h.1, ← h.2]
              exact ⟨Bool.not_eq_true _ ▸ hla, Bool.not_eq_true _ ▸ hlo⟩

unseal Rat.mul Rat.inv Rat.add Rat.sub in
/-- Witness for C4 (amended) at a concrete resolvable response. -/
theorem resolved_coords_not_nan_witness :
    getLatitudeLongitude
        (.response true { result := some [{ latitude := "19.0760", longitude := "72.8777" }] }) =
      some (JSNum.finite (4769 / 250), JSNum.finite (728777 / 10000)) ∧
    (JSNum.finite (4769 / 250)).isNaN = false ∧
    (JSNum.finite (728777 / 10000)).isNaN = false :=
  ⟨by decide,
    resolved_coords_not_nan
      (.response true { result := some [{ latitude := "19.0760", longitude := "72.8777" }] })
      (JSNum.finite (4769 / 250)) (JSNum.finite (728777 / 10000)) (by decide)⟩

unseal Rat.mul Rat.inv Rat.add Rat.sub in
/-- Counterexample for C5 as stated: the latitude string "Infinity"
does not parse to a finite number, so the claim requires Unresolved,
but the code only rejects `NaN` and returns the infinite coordinate. -/
theorem resolver_infinity_counterexample :
    getLatitudeLongitude
        (.response true { result := some [{ latitude := "Infinity", longitude := "0" }] }) =
      some (JSNum.inf true, JSNum.finite 0) := by
  decide

/-- C5 (amended): `getLatitudeLongitude` returns Unresolved (it is a
total function, never an exception) exactly when the transport call
fails, the upstream responds with a non-success status, the response
contains no result entries, or the first result's latitude/longitude
strings parse to `NaN` (strings parsing to an infinity are accepted);
when multiple result entries are returned, only the first entry
determines the output. -/
theorem resolver_unresolved_characterization (body : LatLongResponse)
    (r0 : GeoResult) (rest : List GeoResult) :
    getLatitudeLongitude .failure = none ∧
    getLatitudeLongitude (.response false body) = none ∧
    (body.result = none → getLatitudeLongitude (.response true body) = none) ∧
    (body.result = some [] → getLatitudeLongitude (.response true body) = none) ∧
    (body.result = some (r0 :: rest) →
      getLatitudeLongitude (.response true body) =
        (if (parseFloat r0.latitude).isNaN || (parseFloat r0.longitude).isNaN then none
         else some (parseFloat r0.latitude, parseFloat r0.longitude))) := by
  refine ⟨rfl, rfl, fun h => ?_, fun h => ?_, fun h => ?_⟩
  · simp [getLatitudeLongitude, h]
  · simp [getLatitudeLongitude, h]
  · simp only [getLatitudeLongitude, h, Bool.not_true, Bool.false_eq_true, if_false]

unseal Rat.mul Rat.inv Rat.add Rat.sub in
/-- Witness for C5 (amended): a response with two result entries; the
output is determined by the first entry alone. -/
theorem resolver_unresolved_witness :
    ({ result := some [{ latitude := "19.0760", longitude := "72.8777" },
        { latitude := "0", longitude := "0" }] } : LatLongResponse).result =
      some ({ latitude := "19.0760", longitude := "72.8777" } ::
        [{ latitude := "0", longitude := "0" }]) ∧
    getLatitudeLongitude
        (.response true { result := some [{ latitude := "19.0760", longitude := "72.8777" },
          { latitude := "0", longitude := "0" }] }) =
      (if (parseFloat "19.0760").isNaN || (parseFloat "72.8777").isNaN then none
       else some (parseFloat "19.0760", parseFloat "72.8777")) :=
  ⟨rfl,
    (resolver_unresolved_characterization
        { result := some [{ latitude := "19.0760", longitude := "72.8777" },
          { latitude := "0", longitude := "0" }] }
        { latitude := "19.0760", longitude := "72.8777" }
        [{ latitude := "0", longitude := "0" }]).2.2.2.2 rfl⟩

/-- C7: for every request, a missing (or empty, which `!apiKey` also
treats as missing) credential, a rejected upstream fetch, or a non-ok
upstream status each produce an `{error: string}` body with HTTP status
500; when the body parses, the credential is present and the upstream
responds ok, the proxy relays the upstream JSON payload verbatim with
status 200. -/
theorem proxy_error_and_relay {α : Type} (reqBody : Except String (ℚ × ℚ))
    (apiKey : Option String) (upstream : String → FetchOutcome α) :
    ((apiKey = none ∨ apiKey = some "") →
      (proxyPOST reqBody apiKey upstream).status = 500 ∧
      ∃ msg, (proxyPOST reqBody apiKey upstream).body = .inl msg) ∧
    (∀ lat long key, reqBody = .ok (lat, long) → apiKey = some key → key ≠ "" →
      (upstream (nrelUrl key lat long) = .failure →
        (proxyPOST reqBody apiKey upstream).status = 500 ∧
        ∃ msg, (proxyPOST reqBody apiKey upstream).body = .inl msg) ∧
      (∀ d, upstream (nrelUrl key lat long) = .response false d →
        (proxyPOST reqBody apiKey upstream).status = 500 ∧
        ∃ msg, (proxyPOST reqBody apiKey upstream).body = .inl msg) ∧
      (∀ d, upstream (nrelUrl key lat long) = .response true d →
        proxyPOST reqBody apiKey upstream = { status := 200, body := .inr d })) := by
  constructor
  · intro hk
    cases reqBody with
    | error msg => exact ⟨rfl, msg, rfl⟩
    | ok p =>
      obtain ⟨lat, long⟩ := p
      rcases hk with hk | hk <;> subst hk
      · exact ⟨rfl, "NREL API key is missing in environment variables", rfl⟩
      · exact ⟨by simp [proxyPOST], "NREL API key is missing in environment variables",
          by simp [proxyPOST]⟩
  · intro lat long key hreq hkey hne
    subst hreq
    subst hkey
    refine ⟨fun hup => ?_, fun d hup => ?_, fun d hup => ?_⟩ <;>
      simp [proxyPOST, if_neg hne, hup]

/-- Concrete upstream used by the C7 witness: always ok with payload
`42`. -/
def upstreamW : String → FetchOutcome ℕ := fun _ => .response true 42

/-- Witness for C7: valid body, present credential, ok upstream — the
payload is relayed verbatim with status 200. -/
theorem proxy_error_and_relay_witness :
    (Except.ok ((19 : ℚ), (72 : ℚ)) : Except String (ℚ × ℚ)) = .ok (19, 72) ∧
    (some "key" : Option String) = some "key" ∧ ("key" : String) ≠ "" ∧
    upstreamW (nrelUrl "key" 19 72) = .response true 42 ∧
    proxyPOST (.ok (19, 72)) (some "key") upstreamW = { status := 200, body := .inr 42 } :=
  ⟨rfl, rfl, by decide, rfl,
    ((proxy_error_and_relay (.ok (19, 72)) (some "key") upstreamW).2 19 72 "key" rfl rfl
      (by decide)).2.2 42 rfl⟩

/-- C8: the two network stages are strictly sequential — in every trace
of `getSolarData`, a proxy request occurs only strictly after the
geocode request — and when the geocode does not resolve, the trace
contains the generic failure message and no proxy request at all. -/
theorem sequential_pipeline (p c : String) (cap : ℚ) (geo : FetchOutcome LatLongResponse)
    (proxy : JSNum → JSNum → FetchOutcome SolarOutputs) :
    (∀ (i : ℕ) (la lo : JSNum),
      (getSolarDataTrace p c cap geo proxy)[i]? = some (Event.proxyRequest la lo) →
      ∃ j : ℕ, j < i ∧
        (getSolarDataTrace p c cap geo proxy)[j]? = some (Event.geocodeRequest p c)) ∧
    (getLatitudeLongitude geo = none →
      (∀ la lo, Event.proxyRequest la lo ∉ getSolarDataTrace p c cap geo proxy) ∧
      Event.setError "Data cannot be fetched for this postcode" ∈
        getSolarDataTrace p c cap geo proxy) := by
  cases hres : getLatitudeLongitude geo with
  | none =>
    refine ⟨fun i la lo hi => ?_, fun _ => ⟨fun la lo hmem => ?_, ?_⟩⟩
    · have hmem : Event.proxyRequest la lo ∈ getSolarDataTrace p c cap geo proxy :=
        List.getElem?_mem hi
      simp [getSolarDataTrace, hres] at hmem
    · simp [getSolarDataTrace, hres] at hmem
    · simp [getSolarDataTrace, hres]
  | some coords =>
    obtain ⟨lat, long⟩ := coords
    have htrace : getSolarDataTrace p c cap geo proxy =
        Event.setLoading true :: Event.setError "" :: Event.geocodeRequest p c ::
          Event.proxyRequest lat long ::
          ((match proxy lat long with
            | .failure => [Event.setError "Data cannot be fetched for this postcode"]
            | .response ok outs =>
              if ok then [Event.setSolarData (combineSolarData outs cap)]
              else [Event.setError "Data cannot be fetched for this postcode"]) ++
            [Event.setLoading false]) := by
      simp [getSolarDataTrace, hres]
    refine ⟨fun i la lo hi => ?_, fun hnone => absurd hnone (by simp)⟩
    rw [htrace] at hi ⊢
    rcases i with _ | _ | _ | n
    · simp at hi
    · simp at hi
    · simp at hi
    · exact ⟨2, by omega, rfl⟩

/-- Concrete geocode outcome used by the C8 witness. -/
def geoW : FetchOutcome LatLongResponse :=
  .response true { result := some [{ latitude := "19.0760", longitude := "72.8777" }] }

/-- Concrete proxy outcome used by the C8 witness. -/
def proxyW : JSNum → JSNum → FetchOutcome SolarOutputs := fun _ _ => .failure

unseal Rat.mul Rat.inv Rat.add Rat.sub in
/-- Witness for C8: with a resolvable geocode response, the proxy
request sits at index 3 of the trace and the geocode request strictly
before it. -/
theorem sequential_pipeline_witness :
    (getSolarDataTrace "400001" "IN" 1000 geoW proxyW)[3]? =
      some (Event.proxyRequest (parseFloat "19.0760") (parseFloat "72.8777")) ∧
    ∃ j : ℕ, j < 3 ∧
      (getSolarDataTrace "400001" "IN" 1000 geoW proxyW)[j]? =
        some (Event.geocodeRequest "400001" "IN") :=
  ⟨by decide,
    (sequential_pipeline "400001" "IN" 1000 geoW proxyW).1 3
      (parseFloat "19.0760") (parseFloat "72.8777") (by decide)⟩
